import Mathlib

/-!
Verification of the type-signature resolver of `caikit`
(`caikit.runtime.service_generation.primitives.to_output_dm_type`),
the function exercised by `tests/core/toolkit/test_primitives.py`.

The resolver takes a Python type annotation — a plain class, possibly
wrapped in `Optional`, possibly a `Union` of several alternatives — and
returns the single "output data-model type" it denotes, or raises when no
data-model type can be determined.  Membership in the data-model
vocabulary is decided by an external registry predicate
`is_data_model_type`, which the resolver treats as a black box; here it is
an explicit parameter `dm` over class names.
-/

namespace Caikit

/-- A Plain Type: either the designated "absent" marker (`NoneType`) or a
concrete class identified by its (qualified) name. -/
inductive PlainType where
  | noneType : PlainType
  | cls : String → PlainType
deriving DecidableEq, Repr

/-- A type annotation (the spec's TypeAnnotation), as produced by
Python's type-hinting system: either a Plain Type or a Union of an
ordered sequence of member annotations (`Optional[X]` is the special
case `Union[X, NoneType]`). -/
inductive TypeAnn where
  | plain : PlainType → TypeAnn
  | union : List TypeAnn → TypeAnn
deriving Repr

/-- The resolution failure raised by the resolver — the spec's single
error kind (ResolutionError/ResolutionFailure), carrying the annotation
being resolved, for diagnostics.  The tests observe it only through
`pytest.raises(RuntimeError)`, which is satisfied by the built-in
`RuntimeError` and by any dedicated subclass alike; the constructor name
records that observable, not a commitment to the exact Python class. -/
inductive PyExc where
  | runtimeError : TypeAnn → PyExc
deriving Repr

/-- Modelled from the spec: the external registry predicate
`is_data_model_type(PlainType) -> bool` ("a Plain Type that is registered
as part of the service's canonical output vocabulary").  The registry
holds classes, so the "absent" marker `NoneType` is never a registered
data-model type; membership of a class is decided by the injected
registry `dm` over class names. -/
def is_data_model_type (dm : String → Bool) : PlainType → Bool
  | .noneType => false
  | .cls n => dm n

/-- Does this member annotation equal the "absent"/`None` marker type? -/
def isNoneMarker : TypeAnn → Bool
  | .plain .noneType => true
  | _ => false

/-- The members of a Union that remain after discarding the
"absent"/`None` marker (step 1b of the spec's algorithm). -/
def realMembers (ms : List TypeAnn) : List TypeAnn :=
  ms.filter fun m => !isNoneMarker m

mutual

/-- Modelled from the spec: `to_output_dm_type` — the resolver
(`resolve(annotation) -> DataModelType`), whose implementation file is
absent from the sources (only its tests are present).  Recursive
unwrap-and-classify, following the spec's algorithm:

1. Union Type: discard members equal to the None marker; if exactly one
   member remains, recurse into it; if more remain, return the first
   member, in declaration order, whose recursive resolution is a
   DataModelType; if none qualifies, fail.
2. Plain Type: return it unchanged when it is a DataModelType, otherwise
   fail.

Failure is the spec's single resolution-error kind (observed by the
tests via `pytest.raises(RuntimeError)`), carrying the annotation for
diagnostics. -/
def to_output_dm_type (dm : String → Bool) : TypeAnn → Except PyExc PlainType
  | .plain p =>
      if is_data_model_type dm p then Except.ok p
      else Except.error (PyExc.runtimeError (.plain p))
  | .union ms =>
      if (realMembers ms).length = 1 then soleMember dm ms (.union ms)
      else
        match firstResolvable dm ms with
        | some p => Except.ok p
        | none => Except.error (PyExc.runtimeError (.union ms))

/-- Resolve the single member of a Union that remains after discarding
the None markers (step 1c: "if exactly one member remains after
discarding, recurse into it").  `orig` is the original Union annotation,
reported if — contrary to the caller's guard — no member remains. -/
def soleMember (dm : String → Bool) :
    List TypeAnn → TypeAnn → Except PyExc PlainType
  | [], orig => Except.error (PyExc.runtimeError orig)
  | m :: ms, orig =>
      if isNoneMarker m then soleMember dm ms orig
      else to_output_dm_type dm m

/-- The resolution of the first non-marker member, in declaration order,
whose recursive resolution succeeds (step 1d: first-match policy). -/
def firstResolvable (dm : String → Bool) : List TypeAnn → Option PlainType
  | [] => none
  | m :: ms =>
      if isNoneMarker m then firstResolvable dm ms
      else
        match to_output_dm_type dm m with
        | Except.ok p => some p
        | Except.error _ => firstResolvable dm ms

end

/-! Concrete instances mirroring the test fixtures of
`tests/core/toolkit/test_primitives.py`: a registry holding the single
data-model class `SampleOutputType`, and the primitive `str`. -/

/-- The registry of the test fixtures: `SampleOutputType` is the only
registered data-model class. -/
def sampleRegistry : String → Bool := fun n => n == "SampleOutputType"

/-- The data-model class `SampleOutputType` of the test fixtures. -/
def SampleOutputType : PlainType := PlainType.cls "SampleOutputType"

/-- The primitive type `str`. -/
def strType : TypeAnn := TypeAnn.plain (.cls "str")

/-! ### Helper lemmas -/

/-- A successful `soleMember` result is the resolution of some member of
the list. -/
theorem soleMember_ok (dm : String → Bool) (orig : TypeAnn) :
    ∀ ms p, soleMember dm ms orig = Except.ok p →
      ∃ m ∈ ms, to_output_dm_type dm m = Except.ok p := by
  intro ms
  induction ms with
  | nil => intro p h; simp [soleMember] at h
  | cons m ms ih =>
      intro p h
      rw [soleMember] at h
      by_cases hm : isNoneMarker m
      · rw [if_pos hm] at h
        obtain ⟨m', hmem, hm'⟩ := ih p h
        exact ⟨m', List.mem_cons_of_mem _ hmem, hm'⟩
      · rw [if_neg hm] at h
        exact ⟨m, List.mem_cons_self _ _, h⟩

/-- A `soleMember` error is either the "no member remains" error on the
original annotation, or the error of resolving some member. -/
theorem soleMember_error (dm : String → Bool) (orig : TypeAnn) :
    ∀ ms e, soleMember dm ms orig = Except.error e →
      e = PyExc.runtimeError orig ∨
        ∃ m ∈ ms, to_output_dm_type dm m = Except.error e := by
  intro ms
  induction ms with
  | nil =>
      intro e h
      rw [soleMember] at h
      exact Or.inl (Except.error.inj h).symm
  | cons m ms ih =>
      intro e h
      rw [soleMember] at h
      by_cases hm : isNoneMarker m
      · rw [if_pos hm] at h
        rcases ih e h with h' | ⟨m', hmem, hm'⟩
        · exact Or.inl h'
        · exact Or.inr ⟨m', List.mem_cons_of_mem _ hmem, hm'⟩
      · rw [if_neg hm] at h
        exact Or.inr ⟨m, List.mem_cons_self _ _, h⟩

/-- A successful `firstResolvable` result is the resolution of some
member of the list. -/
theorem firstResolvable_some (dm : String → Bool) :
    ∀ ms p, firstResolvable dm ms = some p →
      ∃ m ∈ ms, to_output_dm_type dm m = Except.ok p := by
  intro ms
  induction ms with
  | nil => intro p h; simp [firstResolvable] at h
  | cons m ms ih =>
      intro p h
      rw [firstResolvable] at h
      by_cases hm : isNoneMarker m
      · rw [if_pos hm] at h
        obtain ⟨m', hmem, hm'⟩ := ih p h
        exact ⟨m', List.mem_cons_of_mem _ hmem, hm'⟩
      · rw [if_neg hm] at h
        rcases hr : to_output_dm_type dm m with e | q
        · rw [hr] at h
          obtain ⟨m', hmem, hm'⟩ := ih p h
          exact ⟨m', List.mem_cons_of_mem _ hmem, hm'⟩
        · rw [hr] at h
          exact ⟨m, List.mem_cons_self _ _, by rw [hr, Option.some.inj h]⟩

/-- A member of a Union is smaller than the Union annotation. -/
theorem sizeOf_member_lt {m : TypeAnn} {ms : List TypeAnn}
    (hm : m ∈ ms) : sizeOf m < sizeOf (TypeAnn.union ms) := by
  have h := List.sizeOf_lt_of_mem hm
  simp only [TypeAnn.union.sizeOf_spec]
  omega

/-- Whatever the resolver returns successfully is a registered data-model
type (soundness of resolution). -/
theorem resolve_ok_isDM (dm : String → Bool) (a : TypeAnn) (p : PlainType)
    (h : to_output_dm_type dm a = Except.ok p) : is_data_model_type dm p = true := by
  suffices H : ∀ n a p, sizeOf a ≤ n → to_output_dm_type dm a = Except.ok p →
      is_data_model_type dm p = true from H (sizeOf a) a p le_rfl h
  intro n
  induction n using Nat.strong_induction_on with
  | _ n ih =>
      intro a p hsize h
      match a with
      | .plain q =>
          rw [to_output_dm_type] at h
          split at h
          · next hq => rw [← Except.ok.inj h]; exact hq
          · exact absurd h (by simp)
      | .union ms =>
          have hmem : ∃ m ∈ ms, to_output_dm_type dm m = Except.ok p := by
            rw [to_output_dm_type] at h
            split at h
            · exact soleMember_ok dm _ ms p h
            · split at h
              · next q hq => exact Except.ok.inj h ▸ firstResolvable_some dm ms q hq
              · exact absurd h (by simp)
          obtain ⟨m, hm, hres⟩ := hmem
          have hlt := sizeOf_member_lt hm
          exact ih (sizeOf m) (by omega) m p le_rfl hres

/-- Every error the resolver raises is the built-in `RuntimeError`,
carrying some annotation. -/
theorem resolve_error_shape (dm : String → Bool) (a : TypeAnn) (e : PyExc)
    (h : to_output_dm_type dm a = Except.error e) :
    ∃ t, e = PyExc.runtimeError t := by
  suffices H : ∀ n a e, sizeOf a ≤ n → to_output_dm_type dm a = Except.error e →
      ∃ t, e = PyExc.runtimeError t from H (sizeOf a) a e le_rfl h
  intro n
  induction n using Nat.strong_induction_on with
  | _ n ih =>
      intro a e hsize h
      match a with
      | .plain q =>
          rw [to_output_dm_type] at h
          split at h
          · exact absurd h (by simp)
          · exact ⟨.plain q, (Except.error.inj h).symm⟩
      | .union ms =>
          rw [to_output_dm_type] at h
          split at h
          · rcases soleMember_error dm _ ms e h with h' | ⟨m, hm, hres⟩
            · exact ⟨.union ms, h'⟩
            · have hlt := sizeOf_member_lt hm
              exact ih (sizeOf m) (by omega) m e le_rfl hres
          · split at h
            · exact absurd h (by simp)
            · exact ⟨.union ms, (Except.error.inj h).symm⟩

/-- A registered data-model type is never the None marker. -/
theorem isDM_not_marker {dm : String → Bool} {D : PlainType}
    (hD : is_data_model_type dm D = true) :
    isNoneMarker (TypeAnn.plain D) = false := by
  cases D with
  | noneType => simp [is_data_model_type] at hD
  | cls n => rfl

/-- Resolving a plain registered data-model type yields it unchanged. -/
theorem resolve_plain_dm {dm : String → Bool} {D : PlainType}
    (hD : is_data_model_type dm D = true) :
    to_output_dm_type dm (.plain D) = Except.ok D := by
  rw [to_output_dm_type, if_pos hD]

/-- Resolving `Optional[D]`, i.e. `Union[D, NoneType]`, for a registered
data-model type `D` yields `D`. -/
theorem resolve_optional_eq {dm : String → Bool} {D : PlainType}
    (hD : is_data_model_type dm D = true) :
    to_output_dm_type dm (.union [.plain D, .plain .noneType]) = Except.ok D := by
  cases D with
  | noneType => simp [is_data_model_type] at hD
  | cls n =>
      have hlen : (realMembers [TypeAnn.plain (PlainType.cls n),
          TypeAnn.plain PlainType.noneType]).length = 1 := rfl
      rw [to_output_dm_type, if_pos hlen, soleMember,
        if_neg (by simp [isNoneMarker]), resolve_plain_dm hD]

/-- When no member of the list resolves successfully, `firstResolvable`
finds nothing. -/
theorem firstResolvable_none {dm : String → Bool} {ms : List TypeAnn}
    (h : ∀ m ∈ ms, ∀ p, to_output_dm_type dm m ≠ Except.ok p) :
    firstResolvable dm ms = none := by
  cases hf : firstResolvable dm ms with
  | none => rfl
  | some p =>
      obtain ⟨m, hm, hres⟩ := firstResolvable_some dm ms p hf
      exact absurd hres (h m hm p)

/-! ### Claim theorems -/

/-- C1: for every registry and every input annotation, `to_output_dm_type`
has exactly two possible outcomes: it returns a Plain Type satisfying
`is_data_model_type`, or it fails with the resolution error
(`RuntimeError`); there is no other result. -/
theorem resolve_dichotomy (dm : String → Bool) (a : TypeAnn) :
    (∃ p, to_output_dm_type dm a = Except.ok p ∧ is_data_model_type dm p = true) ∨
    (∃ t, to_output_dm_type dm a = Except.error (PyExc.runtimeError t)) := by
  cases hr : to_output_dm_type dm a with
  | error e =>
      obtain ⟨t, ht⟩ := resolve_error_shape dm a e hr
      exact Or.inr ⟨t, by rw [ht]⟩
  | ok p => exact Or.inl ⟨p, rfl, resolve_ok_isDM dm a p hr⟩

/-- C2: for every registered data-model type `D`, resolving `D` itself
returns `D` unchanged. -/
theorem resolve_dm_identity (dm : String → Bool) (D : PlainType)
    (hD : is_data_model_type dm D = true) :
    to_output_dm_type dm (.plain D) = Except.ok D :=
  resolve_plain_dm hD

/-- Witness for C2, at the test's fixture `SampleOutputType`. -/
theorem resolve_dm_identity_witness :
    is_data_model_type sampleRegistry SampleOutputType = true ∧
    to_output_dm_type sampleRegistry (.plain SampleOutputType) =
      Except.ok SampleOutputType :=
  ⟨rfl, resolve_dm_identity sampleRegistry SampleOutputType rfl⟩

/-- C3: for every registered data-model type `D` and any type `T`,
resolving `Union[D, T]` returns `D`: the first member, in declaration
order, whose recursive resolution is a data-model type wins, whatever
comes after it. -/
theorem resolve_union_first_dm (dm : String → Bool) (D : PlainType)
    (t : TypeAnn) (hD : is_data_model_type dm D = true) :
    to_output_dm_type dm (.union [.plain D, t]) = Except.ok D := by
  cases D with
  | noneType => simp [is_data_model_type] at hD
  | cls n =>
      rw [to_output_dm_type]
      split
      · rw [soleMember, if_neg (by simp [isNoneMarker]), resolve_plain_dm hD]
      · have hfr : firstResolvable dm [.plain (.cls n), t] = some (.cls n) := by
          rw [firstResolvable, if_neg (by simp [isNoneMarker]), resolve_plain_dm hD]
        rw [hfr]

/-- Witness for C3, at `Union[SampleOutputType, str]` (the test's
`test_to_output_dm_type_with_union_dm`). -/
theorem resolve_union_first_dm_witness :
    is_data_model_type sampleRegistry SampleOutputType = true ∧
    to_output_dm_type sampleRegistry (.union [.plain SampleOutputType, strType]) =
      Except.ok SampleOutputType :=
  ⟨rfl, resolve_union_first_dm sampleRegistry SampleOutputType strType rfl⟩


/-- A marker member is exactly the plain `NoneType` annotation. -/
theorem isNoneMarker_eq {t : TypeAnn} (h : isNoneMarker t = true) :
    t = TypeAnn.plain PlainType.noneType := by
  cases t with
  | plain p =>
      cases p with
      | noneType => rfl
      | cls n => simp [isNoneMarker] at h
  | union ms => simp [isNoneMarker] at h

/-- A plain class annotation is not the None marker. -/
theorem isNoneMarker_cls (n : String) :
    isNoneMarker (TypeAnn.plain (PlainType.cls n)) = false := rfl

/-- A Union annotation is not the None marker. -/
theorem isNoneMarker_union (ms : List TypeAnn) :
    isNoneMarker (TypeAnn.union ms) = false := rfl

/-- C4: for every registered data-model type `D` and every type `T` that
does not resolve to a data-model type, resolving `Union[T, D]` returns
`D`: when only one member qualifies it wins regardless of position. -/
theorem resolve_union_second_dm (dm : String → Bool) (t : TypeAnn)
    (D : PlainType) (hD : is_data_model_type dm D = true)
    (ht : ∀ p, to_output_dm_type dm t ≠ Except.ok p) :
    to_output_dm_type dm (.union [t, .plain D]) = Except.ok D := by
  cases D with
  | noneType => simp [is_data_model_type] at hD
  | cls n =>
      by_cases htm : isNoneMarker t = true
      · have ht' := isNoneMarker_eq htm
        subst ht'
        have hlen : (realMembers [TypeAnn.plain PlainType.noneType,
            TypeAnn.plain (PlainType.cls n)]).length = 1 := rfl
        rw [to_output_dm_type, if_pos hlen, soleMember,
          if_pos (show isNoneMarker (TypeAnn.plain PlainType.noneType) = true from rfl),
          soleMember, if_neg (by simp [isNoneMarker_cls]), resolve_plain_dm hD]
      · have hbool : isNoneMarker t = false := by
          cases hb : isNoneMarker t
          · rfl
          · exact absurd hb htm
        have hreal : realMembers [t, TypeAnn.plain (PlainType.cls n)] =
            [t, TypeAnn.plain (PlainType.cls n)] := by
          simp [realMembers, List.filter_cons, hbool, isNoneMarker_cls]
        have hfr : firstResolvable dm [t, .plain (.cls n)] = some (.cls n) := by
          rw [firstResolvable, if_neg htm]
          cases hr : to_output_dm_type dm t with
          | ok p => exact absurd hr (ht p)
          | error e =>
              show firstResolvable dm [TypeAnn.plain (PlainType.cls n)] =
                some (PlainType.cls n)
              rw [firstResolvable, if_neg (by simp [isNoneMarker_cls]), resolve_plain_dm hD]
        rw [to_output_dm_type, if_neg (by rw [hreal]; simp), hfr]

/-- Witness for C4, at `Union[str, SampleOutputType]`. -/
theorem resolve_union_second_dm_witness :
    (∀ p, to_output_dm_type sampleRegistry strType ≠ Except.ok p) ∧
    to_output_dm_type sampleRegistry (.union [strType, .plain SampleOutputType]) =
      Except.ok SampleOutputType :=
  ⟨fun p h => by simp [strType, to_output_dm_type, is_data_model_type, sampleRegistry] at h,
   resolve_union_second_dm sampleRegistry strType SampleOutputType rfl
     (fun p h => by simp [strType, to_output_dm_type, is_data_model_type, sampleRegistry] at h)⟩


/-- C5: for every registered data-model type `D`, resolving `Optional[D]`
(i.e. `Union[D, NoneType]`) returns `D`: the None marker is discarded and
the single remaining member is resolved recursively. -/
theorem resolve_optional_dm (dm : String → Bool) (D : PlainType)
    (hD : is_data_model_type dm D = true) :
    to_output_dm_type dm (.union [.plain D, .plain .noneType]) = Except.ok D :=
  resolve_optional_eq hD

/-- Witness for C5, at `Optional[SampleOutputType]`. -/
theorem resolve_optional_dm_witness :
    is_data_model_type sampleRegistry SampleOutputType = true ∧
    to_output_dm_type sampleRegistry
        (.union [.plain SampleOutputType, .plain .noneType]) =
      Except.ok SampleOutputType :=
  ⟨rfl, resolve_optional_dm sampleRegistry SampleOutputType rfl⟩

/-- C6: for every registered data-model type `D` and every type `T` that
does not resolve to a data-model type, resolving `Union[Optional[D], T]`
returns `D`: an Optional nested inside a Union unwraps to the enclosed
data-model type. -/
theorem resolve_union_optional_dm (dm : String → Bool) (D : PlainType)
    (t : TypeAnn) (hD : is_data_model_type dm D = true)
    (ht : ∀ p, to_output_dm_type dm t ≠ Except.ok p) :
    to_output_dm_type dm
        (.union [.union [.plain D, .plain .noneType], t]) = Except.ok D := by
  have hopt := resolve_optional_eq hD
  rw [to_output_dm_type]
  split
  · rw [soleMember, if_neg (by simp [isNoneMarker_union]), hopt]
  · have hfr : firstResolvable dm [.union [.plain D, .plain .noneType], t] = some D := by
      rw [firstResolvable, if_neg (by simp [isNoneMarker_union]), hopt]
    rw [hfr]

/-- Witness for C6, at `Union[Optional[SampleOutputType], str]` (the
test's `test_to_output_dm_type_with_union_optional_dm`). -/
theorem resolve_union_optional_dm_witness :
    (∀ p, to_output_dm_type sampleRegistry strType ≠ Except.ok p) ∧
    to_output_dm_type sampleRegistry
        (.union [.union [.plain SampleOutputType, .plain .noneType], strType]) =
      Except.ok SampleOutputType :=
  ⟨fun p h => by simp [strType, to_output_dm_type, is_data_model_type, sampleRegistry] at h,
   resolve_union_optional_dm sampleRegistry SampleOutputType strType rfl
     (fun p h => by simp [strType, to_output_dm_type, is_data_model_type, sampleRegistry] at h)⟩

/-- C7: for every Plain Type `P` that is not a registered data-model type,
resolution fails with the resolution error (`RuntimeError`); it never
returns a value. -/
theorem resolve_primitive_raises (dm : String → Bool) (P : PlainType)
    (hP : is_data_model_type dm P = false) :
    to_output_dm_type dm (.plain P) =
      Except.error (PyExc.runtimeError (.plain P)) := by
  rw [to_output_dm_type, if_neg (by simp [hP])]

/-- Witness for C7, at the primitive `str` (the test's
`test_to_output_dm_type_raises_primitive`). -/
theorem resolve_primitive_raises_witness :
    is_data_model_type sampleRegistry (PlainType.cls "str") = false ∧
    to_output_dm_type sampleRegistry (.plain (.cls "str")) =
      Except.error (PyExc.runtimeError (.plain (.cls "str"))) :=
  ⟨rfl, resolve_primitive_raises sampleRegistry (PlainType.cls "str") rfl⟩


/-- C8: a Union none of whose members resolves to a data-model type fails
with the resolution error (`RuntimeError`). -/
theorem resolve_union_all_primitive (dm : String → Bool)
    (ms : List TypeAnn)
    (h : ∀ m ∈ ms, ∀ p, to_output_dm_type dm m ≠ Except.ok p) :
    ∃ t, to_output_dm_type dm (.union ms) =
      Except.error (PyExc.runtimeError t) := by
  by_cases hlen : (realMembers ms).length = 1
  · rw [to_output_dm_type, if_pos hlen]
    cases hs : soleMember dm ms (.union ms) with
    | ok p =>
        obtain ⟨m, hm, hres⟩ := soleMember_ok dm (.union ms) ms p hs
        exact absurd hres (h m hm p)
    | error e =>
        rcases soleMember_error dm (.union ms) ms e hs with he | ⟨m, hm, hres⟩
        · exact ⟨.union ms, by rw [he]⟩
        · obtain ⟨t, htt⟩ := resolve_error_shape dm m e hres
          exact ⟨t, by rw [htt]⟩
  · rw [to_output_dm_type, if_neg hlen, firstResolvable_none h]
    exact ⟨.union ms, rfl⟩

/-- Witness for C8, at `Union[str, int]` with neither class registered. -/
theorem resolve_union_all_primitive_witness :
    (∀ m ∈ [strType, TypeAnn.plain (.cls "int")],
      ∀ p, to_output_dm_type sampleRegistry m ≠ Except.ok p) ∧
    ∃ t, to_output_dm_type sampleRegistry
        (.union [strType, .plain (.cls "int")]) =
      Except.error (PyExc.runtimeError t) := by
  have hyp : ∀ m ∈ [strType, TypeAnn.plain (.cls "int")],
      ∀ p, to_output_dm_type sampleRegistry m ≠ Except.ok p := by
    intro m hm p hok
    simp only [List.mem_cons, List.not_mem_nil, or_false] at hm
    rcases hm with rfl | rfl
    · simp [strType, to_output_dm_type, is_data_model_type, sampleRegistry] at hok
    · simp [to_output_dm_type, is_data_model_type, sampleRegistry] at hok
  exact ⟨hyp, resolve_union_all_primitive sampleRegistry
    [strType, .plain (.cls "int")] hyp⟩

/-- C9: idempotence — whenever resolution succeeds with result `R`,
resolving `R` itself succeeds and returns `R` unchanged. -/
theorem resolve_idempotent (dm : String → Bool) (a : TypeAnn)
    (r : PlainType) (h : to_output_dm_type dm a = Except.ok r) :
    to_output_dm_type dm (.plain r) = Except.ok r := by
  rw [to_output_dm_type, if_pos (resolve_ok_isDM dm a r h)]

/-- Witness for C9, at `Union[SampleOutputType, str]`, which resolves to
`SampleOutputType`. -/
theorem resolve_idempotent_witness :
    to_output_dm_type sampleRegistry (.union [.plain SampleOutputType, strType]) =
      Except.ok SampleOutputType ∧
    to_output_dm_type sampleRegistry (.plain SampleOutputType) =
      Except.ok SampleOutputType :=
  ⟨rfl, resolve_idempotent sampleRegistry
    (.union [.plain SampleOutputType, strType]) SampleOutputType rfl⟩

end Caikit
